import Mathlib

/-!
Verification of the alpacalert core against its specification.

Shallow embedding of the Python source:
- `src/main/python/alpacalert/models.py` (State algebra, Status, Log, Severity)
- `src/main/python/alpacalert/generic.py` (SystemAll / SystemAny / status_all)
- `src/main/python/alpacalert/instrumentor.py` (registry, composite instrumentors)
- `src/main/python/alpacalert/transform.py` (find_scanners / find_path)
- `src/main/python/alpacalert/instrumentors/k8s.py` (K8s cache facade, container sensor)
- `src/main/python/alpacalert/visualisers/console.py` (console visualiser walk)

Python exceptions are modelled with `Except String`; Python dicts that are
iterated in insertion order are modelled as association lists.
-/

namespace Alpacalert

/-- Severity of a Message, per models.py `Severity` (OpenTelemetry levels). -/
inductive Severity where
  | TRACE
  | DEBUG
  | INFO
  | WARN
  | ERROR
  | FATAL
deriving DecidableEq, Repr

/-- The numeric value of each Severity member, as in models.py. -/
def Severity.value : Severity → Nat
  | .TRACE => 1
  | .DEBUG => 5
  | .INFO => 9
  | .WARN => 13
  | .ERROR => 17
  | .FATAL => 21

/-- Python's `Enum.name` attribute for Severity (used by the console visualiser). -/
def Severity.nameStr : Severity → String
  | .TRACE => "TRACE"
  | .DEBUG => "DEBUG"
  | .INFO => "INFO"
  | .WARN => "WARN"
  | .ERROR => "ERROR"
  | .FATAL => "FATAL"

/-- A message to be passed as part of a Status (models.py `Log`). -/
structure Log where
  message : String
  severity : Severity
deriving DecidableEq, Repr

/-- The state of a Scanner (models.py `State`). -/
inductive State where
  | PASSING
  | FAILING
  | UNKNOWN
deriving DecidableEq, Repr

/-- models.py `State.__and__`: the least favourable state (PASSING < UNKNOWN < FAILING),
transcribed match-for-match from the Python. -/
def State.and : State → State → State
  | .PASSING, other => other
  | .FAILING, _ => .FAILING
  | .UNKNOWN, other =>
    match other with
    | .PASSING => .UNKNOWN
    | .FAILING => .FAILING
    | .UNKNOWN => .UNKNOWN

/-- models.py `State.__or__`: the most favourable state (PASSING > UNKNOWN > FAILING),
transcribed match-for-match from the Python. -/
def State.or : State → State → State
  | .PASSING, _ => .PASSING
  | .FAILING, other => other
  | .UNKNOWN, other =>
    match other with
    | .PASSING => .PASSING
    | .FAILING => .UNKNOWN
    | .UNKNOWN => .UNKNOWN

/-- models.py `State.from_bool`: convert a tri-state boolean into a State.
Python's `bool | None` is modelled as `Option Bool` (`none` = Python `None`). -/
def State.from_bool : Option Bool → State
  | some true => .PASSING
  | some false => .FAILING
  | none => .UNKNOWN

/-- Status of a Scanner (models.py `Status`); `messages` defaults to `[]` in Python. -/
structure Status where
  state : State
  messages : List Log
deriving DecidableEq, Repr

/-- C2: the three-valued State operators equal the reference tables for every pair of
states; AND and OR are commutative; `from_bool` maps `true`/`false`/`None` to
PASSING/FAILING/UNKNOWN. -/
theorem claim_C2 :
    (State.and .PASSING .PASSING = .PASSING)
    ∧ (State.and .PASSING .UNKNOWN = .UNKNOWN)
    ∧ (State.and .PASSING .FAILING = .FAILING)
    ∧ (State.and .UNKNOWN .UNKNOWN = .UNKNOWN)
    ∧ (State.and .UNKNOWN .FAILING = .FAILING)
    ∧ (State.and .FAILING .FAILING = .FAILING)
    ∧ (State.or .PASSING .PASSING = .PASSING)
    ∧ (State.or .PASSING .FAILING = .PASSING)
    ∧ (State.or .PASSING .UNKNOWN = .PASSING)
    ∧ (State.or .FAILING .UNKNOWN = .UNKNOWN)
    ∧ (State.or .FAILING .FAILING = .FAILING)
    ∧ (State.or .UNKNOWN .UNKNOWN = .UNKNOWN)
    ∧ (∀ a b : State, State.and a b = State.and b a)
    ∧ (∀ a b : State, State.or a b = State.or b a)
    ∧ (State.from_bool (some true) = .PASSING)
    ∧ (State.from_bool (some false) = .FAILING)
    ∧ (State.from_bool none = .UNKNOWN) := by
  refine ⟨rfl, rfl, rfl, rfl, rfl, rfl, rfl, rfl, rfl, rfl, rfl, rfl, ?_, ?_, rfl, rfl, rfl⟩
  all_goals intro a b; cases a <;> cases b <;> rfl

/-- C7: State AND and OR are associative as well as commutative, so folded results do
not depend on the order of reduction. -/
theorem claim_C7 :
    (∀ a b c : State, State.and (State.and a b) c = State.and a (State.and b c))
    ∧ (∀ a b c : State, State.or (State.or a b) c = State.or a (State.or b c))
    ∧ (∀ a b : State, State.and a b = State.and b a)
    ∧ (∀ a b : State, State.or a b = State.or b a) := by
  refine ⟨?_, ?_, ?_, ?_⟩
  · intro a b c; cases a <;> cases b <;> cases c <;> rfl
  · intro a b c; cases a <;> cases b <;> cases c <;> rfl
  · intro a b; cases a <;> cases b <;> rfl
  · intro a b; cases a <;> cases b <;> rfl

/-! ## generic.py: SystemAll / SystemAny / status_all

Python's `functools.reduce(op, xs)` with no initial value left-folds `xs` and raises
`TypeError` on an empty iterable; it is modelled by `reduceOp`, returning `none` on `[]`.
-/

/-- `functools.reduce op xs` without an initial value: `none` models the `TypeError`
raised on an empty iterable. -/
def reduceOp (op : State → State → State) : List State → Option State
  | [] => none
  | s :: rest => some (rest.foldl op s)

/-- generic.py `SystemAll.status`: reduce the children's states with `State.and`.
The children's already-computed statuses are the input; the empty-list `TypeError`
from `reduce` propagates uncaught (there is no try/except in `SystemAll.status`). -/
def SystemAll_status (statuses : List Status) : Except String Status :=
  match reduceOp State.and (statuses.map (·.state)) with
  | some st => .ok ⟨st, []⟩
  | none => .error "TypeError: reduce() of empty iterable with no initial value"

/-- generic.py `SystemAny.status`: reduce the children's states with `State.or`. -/
def SystemAny_status (statuses : List Status) : Except String Status :=
  match reduceOp State.or (statuses.map (·.state)) with
  | some st => .ok ⟨st, []⟩
  | none => .error "TypeError: reduce() of empty iterable with no initial value"

/-- The Python list comprehension `[sensor.status() for sensor in self.children()]`:
each child's `status()` may raise; the first raise aborts the comprehension. -/
def seqExcept : List (Except String Status) → Except String (List Status)
  | [] => .ok []
  | x :: rest =>
    match x with
    | .error e => .error e
    | .ok s =>
      match seqExcept rest with
      | .error e => .error e
      | .ok ss => .ok (s :: ss)

/-- generic.py `status_all`: collect the children's statuses, reduce with `State.and`,
and wrap ANY exception (a child raise, or the empty-reduce `TypeError`) as
`ScannerError` via the surrounding `try/except`. -/
def status_all (childResults : List (Except String Status)) : Except String Status :=
  match seqExcept childResults with
  | .error _ => .error "ScannerError: error instrumenting"
  | .ok statuses =>
    match reduceOp State.and (statuses.map (·.state)) with
    | some st => .ok ⟨st, []⟩
    | none => .error "ScannerError: error instrumenting"

/-- C3 counterexample: on an empty children list, `SystemAll.status` and
`SystemAny.status` raise (Python `reduce` of an empty iterable) instead of returning
the claimed PASSING / FAILING identities. -/
theorem claim_C3_counterexample :
    SystemAll_status [] = .error "TypeError: reduce() of empty iterable with no initial value"
    ∧ SystemAny_status [] = .error "TypeError: reduce() of empty iterable with no initial value"
    ∧ SystemAll_status [] ≠ .ok ⟨State.PASSING, []⟩
    ∧ SystemAny_status [] ≠ .ok ⟨State.FAILING, []⟩ := by
  refine ⟨rfl, rfl, ?_, ?_⟩ <;> (intro h; exact Except.noConfusion h)

/-- C3 (amended): reducing an empty collection of children raises — `SystemAll.status`
and `SystemAny.status` on `[]` propagate the `TypeError` from `reduce` — while for any
non-empty children list both return the left-fold of the child states. -/
theorem claim_C3_amended :
    (SystemAll_status [] = .error "TypeError: reduce() of empty iterable with no initial value")
    ∧ (SystemAny_status [] = .error "TypeError: reduce() of empty iterable with no initial value")
    ∧ (∀ s rest, SystemAll_status (s :: rest)
        = .ok ⟨(rest.map (·.state)).foldl State.and s.state, []⟩)
    ∧ (∀ s rest, SystemAny_status (s :: rest)
        = .ok ⟨(rest.map (·.state)).foldl State.or s.state, []⟩) := by
  refine ⟨rfl, rfl, ?_, ?_⟩ <;> (intro s rest; rfl)

/-! ## Scanner trees and transform.py -/

/-- A Scanner as seen by transform.py and the composite instrumentor: a named node
with child scanners (`name` / `children()` of models.py `Scanner`). -/
inductive Sc where
  | node : String → List Sc → Sc

/-- `Scanner.name`. -/
def Sc.name : Sc → String
  | .node n _ => n

/-- `Scanner.children()`. -/
def Sc.children : Sc → List Sc
  | .node _ cs => cs

/-- transform.py `find_scanners`: on `"*"` return the input verbatim; otherwise keep
the scanners whose name matches, raising `NotFoundException` when none do. -/
def find_scanners (scanners : List Sc) (name : String) : Except String (List Sc) :=
  if name == "*" then .ok scanners
  else
    let found := scanners.filter (fun s => s.name == name)
    if found.isEmpty then .error "scanner not found in children" else .ok found

/-- transform.py `find_path` loop body: `children = sum((list(tgt.children()) for tgt
in tgts), start=[])`. -/
def concatChildren (tgts : List Sc) : List Sc :=
  (tgts.map Sc.children).flatten

/-- The `for i, segment in enumerate(path)` loop of transform.py `find_path`, carrying
the loop state (`children`, `tgts`, current index). A `NotFoundException` from
`find_scanners` is re-raised carrying the failing index and segment. -/
def find_pathGo (children : List Sc) (tgts : List Sc) (i : Nat) :
    List String → Except (Nat × String) (List Sc)
  | [] => .ok tgts
  | seg :: rest =>
    match find_scanners children seg with
    | .error _ => .error (i, seg)
    | .ok t => find_pathGo (concatChildren t) t (i + 1) rest

/-- transform.py `find_path`: `children` starts as the roots, `tgts` as the empty
tuple, the index at 0. -/
def find_path (scanners : List Sc) (path : List String) : Except (Nat × String) (List Sc) :=
  find_pathGo scanners [] 0 path

/-- Index shifting for the `find_path` loop: running the loop from index `i + 1`
differs from running it from index `i` only in the reported failure index. -/
theorem find_pathGo_shift (path : List String) :
    ∀ c t i, find_pathGo c t (i + 1) path
      = (find_pathGo c t i path).mapError (fun p => (p.1 + 1, p.2)) := by
  induction path with
  | nil => intro c t i; rfl
  | cons seg rest ih =>
    intro c t i
    simp only [find_pathGo]
    cases find_scanners c seg with
    | error e => rfl
    | ok t' => exact ih (concatChildren t') t' (i + 1)

/-- The `tgts` loop state is irrelevant when segments remain: the next iteration
either fails (independently of `tgts`) or overwrites it. -/
theorem find_pathGo_tgts_irrel (seg : String) (rest : List String) :
    ∀ c t t' i, find_pathGo c t i (seg :: rest) = find_pathGo c t' i (seg :: rest) := by
  intro c t t' i
  simp only [find_pathGo]

/-- C9: `find_scanners` returns exactly the direct children whose name matches (all of
them), the whole list verbatim on `"*"`, and raises NotFound when nothing matches a
non-wildcard name; `find_path` folds this lookup over the segments — the first segment
against the roots, each later segment against the concatenated children of the
previous matches — and a failure at a later segment reports an index shifted past the
segments already consumed, with index 0 for a failing first segment. -/
theorem claim_C9 :
    (∀ s : List Sc, find_scanners s "*" = .ok s)
    ∧ (∀ (s : List Sc) (n : String), n ≠ "*" → s.filter (fun x => x.name == n) ≠ [] →
        find_scanners s n = .ok (s.filter (fun x => x.name == n)))
    ∧ (∀ (s : List Sc) (n : String), n ≠ "*" → s.filter (fun x => x.name == n) = [] →
        find_scanners s n = .error "scanner not found in children")
    ∧ (∀ (roots : List Sc) (seg : String) (rest : List String) (m : String),
        find_scanners roots seg = .error m →
        find_path roots (seg :: rest) = .error (0, seg))
    ∧ (∀ (roots : List Sc) (seg : String) (t : List Sc),
        find_scanners roots seg = .ok t → find_path roots [seg] = .ok t)
    ∧ (∀ (roots : List Sc) (seg : String) (t : List Sc) (rest : List String),
        find_scanners roots seg = .ok t → rest ≠ [] →
        find_path roots (seg :: rest)
          = (find_path (concatChildren t) rest).mapError (fun p => (p.1 + 1, p.2))) := by
  refine ⟨?_, ?_, ?_, ?_, ?_, ?_⟩
  · intro s; rfl
  · intro s n hn hne
    simp only [find_scanners]
    rw [if_neg (by simpa using hn), if_neg (by simpa [List.isEmpty_iff] using hne)]
  · intro s n hn he
    simp only [find_scanners]
    rw [if_neg (by simpa using hn), if_pos (by simpa [List.isEmpty_iff] using he)]
  · intro roots seg rest m h
    simp only [find_path, find_pathGo, h]
  · intro roots seg t h
    simp only [find_path, find_pathGo, h]
  · intro roots seg t rest h hne
    simp only [find_path, find_pathGo, h]
    cases rest with
    | nil => exact absurd rfl hne
    | cons seg' rest' =>
      rw [find_pathGo_tgts_irrel seg' rest' (concatChildren t) t []]
      exact find_pathGo_shift (seg' :: rest') (concatChildren t) [] 0

/-- Witness for C9: the fold step evaluated on a concrete two-level tree. -/
theorem claim_C9_witness :
    find_path [Sc.node "a" [Sc.node "b" []]] ["a", "b"]
      = (find_path (concatChildren [Sc.node "a" [Sc.node "b" []]]) ["b"]).mapError
          (fun p => (p.1 + 1, p.2)) :=
  claim_C9.2.2.2.2.2 [Sc.node "a" [Sc.node "b" []]] "a" [Sc.node "a" [Sc.node "b" []]]
    ["b"] (by rfl) (by decide)

/-- C10: a wildcard segment never raises — `find_scanners` returns the input verbatim
on `"*"` even when empty, a path of only `"*"` segments always completes with some
(possibly empty) final working set, and every `find_path` failure names a non-wildcard
segment. -/
theorem claim_C10 :
    (∀ s : List Sc, find_scanners s "*" = .ok s)
    ∧ (∀ (roots : List Sc) (path : List String), (∀ seg ∈ path, seg = "*") →
        ∃ t, find_path roots path = .ok t)
    ∧ (∀ (roots : List Sc) (path : List String) (i : Nat) (s : String),
        find_path roots path = .error (i, s) → s ≠ "*") := by
  have hgo : ∀ (path : List String), (∀ seg ∈ path, seg = "*") →
      ∀ c t i, ∃ t', find_pathGo c t i path = .ok t' := by
    intro path
    induction path with
    | nil => intro _ c t i; exact ⟨t, rfl⟩
    | cons seg rest ih =>
      intro hall c t i
      have hseg : seg = "*" := hall seg (by simp)
      subst hseg
      simp only [find_pathGo, find_scanners]
      exact ih (fun s hs => hall s (by simp [hs])) (concatChildren c) c (i + 1)
  have herr : ∀ (path : List String) (c t : List Sc) (i j : Nat) (s : String),
      find_pathGo c t i path = .error (j, s) → s ≠ "*" := by
    intro path
    induction path with
    | nil => intro c t i j s h; exact absurd h (by simp [find_pathGo])
    | cons seg rest ih =>
      intro c t i j s h
      simp only [find_pathGo] at h
      cases hfs : find_scanners c seg with
      | error m =>
        rw [hfs] at h
        injection h with h2
        have hs : seg = s := congrArg Prod.snd h2
        intro hstar
        rw [hstar] at hs
        rw [hs] at hfs
        exact absurd hfs (by simp [find_scanners])
      | ok t' =>
        rw [hfs] at h
        exact ih (concatChildren t') t' (i + 1) j s h
  refine ⟨fun s => rfl, ?_, ?_⟩
  · intro roots path hall
    exact hgo path hall roots [] 0
  · intro roots path i s h
    exact herr path roots [] 0 i s h

/-- Witness for C10: an all-wildcard path over an empty root set completes. -/
theorem claim_C10_witness :
    ∃ t, find_path [] ["*", "*"] = .ok t :=
  claim_C10.2.1 [] ["*", "*"] (by decide)

/-! ## instrumentor.py: Kind, Instrumentor, InstrumentorComposite, InstrumentorRegistry

The registry's Python dict (insertion-ordered, keyed by `Kind`) is modelled as an
association list. A concrete (non-composite) instrumentor is abstracted as `atom id`,
and the scanners it produces are supplied by an environment `f : Nat → List Sc`
(the Python `instrumentor.instrument(registry, kind, **kwargs)` call).
-/

/-- instrumentor.py `Kind`: immutable `(namespace, name)` pair. The Python field
`namespace` is a Lean keyword, rendered here as `ns`. -/
structure Kind where
  ns : String
  name : String
deriving DecidableEq, Repr

/-- An Instrumentor: either a concrete instrumentor (identified by an id) or
instrumentor.py `InstrumentorComposite` with its stored kind and ordered constituent
list (the Python composite also stores a back-reference to the registry, which plays
no role in `register`/`instrument` and is omitted). -/
inductive Instr where
  | atom : Nat → Instr
  | composite : Kind → List Instr → Instr

/-- Python `isinstance(existing, InstrumentorComposite)`. -/
def isComposite : Instr → Bool
  | .composite _ _ => true
  | .atom _ => false

/-- The registry's `self.instrumentors` dict. -/
abbrev Registry := List (Kind × Instr)

/-- `self.instrumentors.get(kind)`. -/
def lookupReg (r : Registry) (k : Kind) : Option Instr :=
  (r.find? (fun p => p.1 == k)).map (·.2)

/-- `self.instrumentors[kind] = instrumentor`: dict assignment keeps the original
position of an existing key and appends a new key. -/
def setReg (r : Registry) (k : Kind) (i : Instr) : Registry :=
  if r.any (fun p => p.1 == k) then r.map (fun p => if p.1 == k then (k, i) else p)
  else r ++ [(k, i)]

/-- instrumentor.py `InstrumentorRegistry.register`: append to an existing composite,
wrap an existing non-composite binding into a fresh two-element composite, or bind a
free kind directly. -/
def register (r : Registry) (k : Kind) (i : Instr) : Registry :=
  match lookupReg r k with
  | some existing =>
    match existing with
    | .composite _ l => setReg r k (.composite k (l ++ [i]))
    | .atom n => setReg r k (.composite k [.atom n, i])
  | none => setReg r k i

mutual

/-- instrumentor.py `Instrumentor.instrument` under environment `f`: a concrete
instrumentor produces `f id`; `InstrumentorComposite.instrument` returns exactly one
`SystemAll` named `"<kind.namespace>/<kind.name>"` over the chained constituent
results. -/
def instrumentOne (f : Nat → List Sc) : Instr → List Sc
  | .atom n => f n
  | .composite k l => [Sc.node (k.ns ++ "/" ++ k.name) (instrumentList f l)]

/-- The composite's `chain.from_iterable(instrumentor.instrument(...) for
instrumentor in self.instrumentors)`. -/
def instrumentList (f : Nat → List Sc) : List Instr → List Sc
  | [] => []
  | i :: rest => instrumentOne f i ++ instrumentList f rest

end

/-- instrumentor.py `InstrumentorRegistry.instrument`: dispatch on the kind, raising
`InstrumentorError` when no provider is registered. (The modelled instrumentors are
total, so the exception-wrapping branch of the Python cannot fire here.) -/
def instrumentReg (f : Nat → List Sc) (r : Registry) (k : Kind) : Except String (List Sc) :=
  match lookupReg r k with
  | some i => .ok (instrumentOne f i)
  | none => .error "no provider"

/-- C4: registering three concrete instrumentors for one kind yields a single flat
Composite bound to `[i1, i2, i3]` in registration order, and instrumenting that kind
returns exactly one Scanner: an AllOf System named `"<ns>/<name>"` whose children are
the in-order concatenation of the constituents' instrument results. -/
theorem claim_C4 (f : Nat → List Sc) (k : Kind) (n1 n2 n3 : Nat) :
    lookupReg (register (register (register [] k (.atom n1)) k (.atom n2)) k (.atom n3)) k
      = some (.composite k [.atom n1, .atom n2, .atom n3])
    ∧ instrumentReg f
        (register (register (register [] k (.atom n1)) k (.atom n2)) k (.atom n3)) k
      = .ok [Sc.node (k.ns ++ "/" ++ k.name) (f n1 ++ f n2 ++ f n3)] := by
  constructor
  · simp [register, lookupReg, setReg]
  · simp [register, lookupReg, setReg, instrumentReg, instrumentOne, instrumentList]

/-- C6 counterexample: registering the same instrumentor instance twice for the same
kind changes the binding — the kind ends up bound to a Composite holding the
instrumentor twice, not to the original binding. -/
theorem claim_C6_counterexample :
    lookupReg (register (register [] ⟨"alpacalert.example.com", "0"⟩ (.atom 0))
        ⟨"alpacalert.example.com", "0"⟩ (.atom 0)) ⟨"alpacalert.example.com", "0"⟩
      = some (.composite ⟨"alpacalert.example.com", "0"⟩ [.atom 0, .atom 0])
    ∧ lookupReg (register [] ⟨"alpacalert.example.com", "0"⟩ (.atom 0))
        ⟨"alpacalert.example.com", "0"⟩
      = some (.atom 0)
    ∧ some (Instr.composite ⟨"alpacalert.example.com", "0"⟩ [.atom 0, .atom 0])
        ≠ some (Instr.atom 0) := by
  refine ⟨by simp [register, lookupReg, setReg], by simp [register, lookupReg, setReg], ?_⟩
  intro h
  injection h with h2
  exact Instr.noConfusion h2

/-- C6 (amended): `register` never deduplicates — registering the same non-composite
instrumentor a second time for the same kind rebinds the kind to a Composite whose
constituent list holds that instrumentor twice. -/
theorem claim_C6_amended (k : Kind) (i : Instr) (h : isComposite i = false) :
    lookupReg (register (register [] k i) k i) k = some (.composite k [i, i]) := by
  cases i with
  | atom n => simp [register, lookupReg, setReg]
  | composite _ _ => exact absurd h (by simp [isComposite])

/-- Witness for C6 (amended): the double registration evaluated on a concrete kind
and instrumentor. -/
theorem claim_C6_amended_witness :
    lookupReg (register (register [] ⟨"kubernetes.io", "Pod"⟩ (.atom 7))
        ⟨"kubernetes.io", "Pod"⟩ (.atom 7)) ⟨"kubernetes.io", "Pod"⟩
      = some (.composite ⟨"kubernetes.io", "Pod"⟩ [.atom 7, .atom 7]) :=
  claim_C6_amended ⟨"kubernetes.io", "Pod"⟩ (.atom 7) rfl

/-! ## instrumentors/k8s.py: the K8s cache facade

`K8s._cache_get_all` is a `defaultdict(dict)` keyed by `(kind, namespace)` whose
values map object names to objects. It is modelled as an association list of
association lists, preserving Python dict insertion order. The underlying
`kr8s.Api.get` network call is abstracted as `net : String → String → List Obj`, and
the state carries a counter of how many times it has been invoked.
-/

/-- A Kubernetes API object as the cache sees it: its own `kind`, `namespace` and
`name` attributes (Python field `namespace` rendered as `ns`). -/
structure Obj where
  kind : String
  ns : String
  name : String
deriving DecidableEq, Repr

/-- kr8s's cluster-wide namespace sentinel `kr8s.ALL`. -/
def kr8sALL : String := "all"

/-- One value of `K8s._cache_get_all`: a name-keyed dict of objects. -/
abbrev K8sDict := List (String × Obj)

/-- The `K8s` facade state: the `_cache_get_all` dict plus a count of underlying
`kr8s.Api.get` invocations (network list calls). -/
structure K8sState where
  cache : List ((String × String) × K8sDict)
  netCalls : Nat
deriving DecidableEq, Repr

/-- Python `k in self._cache_get_all`. -/
def cacheMem (c : List ((String × String) × K8sDict)) (k : String × String) : Bool :=
  c.any (fun p => p.1 == k)

/-- Python `self._cache_get_all[k]` read-only lookup (no defaultdict insertion). -/
def cacheFind (c : List ((String × String) × K8sDict)) (k : String × String) : K8sDict :=
  ((c.find? (fun p => p.1 == k)).map (·.2)).getD []

/-- Python `d[name] = e` on a name-keyed dict: update in place or append. -/
def dictSet (d : K8sDict) (name : String) (o : Obj) : K8sDict :=
  if d.any (fun p => p.1 == name) then d.map (fun p => if p.1 == name then (name, o) else p)
  else d ++ [(name, o)]

/-- Python `self._cache_get_all[k][name] = e`: the `defaultdict` creates the inner
dict when the key `k` is absent. -/
def cacheSet (c : List ((String × String) × K8sDict)) (k : String × String)
    (name : String) (o : Obj) : List ((String × String) × K8sDict) :=
  if cacheMem c k then c.map (fun p => if p.1 == k then (k, dictSet p.2 name o) else p)
  else c ++ [(k, dictSet [] name o)]

/-- k8s.py `K8s._add_to_cache`: each object is filed under ITS OWN
`(e.kind, e.namespace)` — not under the key that was queried. -/
def _add_to_cache (objs : List Obj) (c : List ((String × String) × K8sDict)) :
    List ((String × String) × K8sDict) :=
  objs.foldl (fun c e => cacheSet c (e.kind, e.ns) e.name e) c

/-- k8s.py `K8s.get_all`: serve `(kind, namespace)` from the cache when the key is
present, otherwise invoke the underlying client and file the results via
`_add_to_cache`. -/
def get_all (net : String → String → List Obj) (kind ns : String) (st : K8sState) :
    List Obj × K8sState :=
  let k := (kind, ns)
  if cacheMem st.cache k then ((cacheFind st.cache k).map (·.2), st)
  else
    let v := net kind ns
    (v, ⟨_add_to_cache v st.cache, st.netCalls + 1⟩)

/-- Python `self._cache_get_all[k]` via `defaultdict.__getitem__`: inserts an empty
dict when the key is absent and returns the (possibly fresh) inner dict. -/
def cacheGetDefault (c : List ((String × String) × K8sDict)) (k : String × String) :
    K8sDict × List ((String × String) × K8sDict) :=
  if cacheMem c k then (cacheFind c k, c) else ([], c ++ [(k, [])])

/-- k8s.py `K8s.get`: populate via `get_all` on a cache miss, then look the name up in
`self._cache_get_all[(kind, namespace)]` (a `defaultdict` access). -/
def K8s_get (net : String → String → List Obj) (kind ns name : String) (st : K8sState) :
    Option Obj × K8sState :=
  let k := (kind, ns)
  let st1 := if cacheMem st.cache k then st else (get_all net kind ns st).2
  let (d, c2) := cacheGetDefault st1.cache k
  ((d.find? (fun p => p.1 == name)).map (·.2), ⟨c2, st1.netCalls⟩)

/-- A one-pod cluster: every list query for kind `"Pod"` returns a single pod living
in namespace `"default"`. -/
def netOnePod : String → String → List Obj :=
  fun kind _ => if kind == "Pod" then [⟨"Pod", "default", "p1"⟩] else []

/-- C5: cluster-wide listing is never cached — `_add_to_cache` files objects under
their own `(kind, namespace)`, so the queried key `("Pod", ALL)` is never inserted and
a second `get_all("Pod", ALL)` invokes the underlying client again: two network calls
where the claim allows at most one. -/
theorem claim_C5_bug :
    ((get_all netOnePod "Pod" kr8sALL ((get_all netOnePod "Pod" kr8sALL ⟨[], 0⟩).2)).2).netCalls = 2
    ∧ cacheMem ((get_all netOnePod "Pod" kr8sALL ⟨[], 0⟩).2).cache ("Pod", kr8sALL) = false
    ∧ cacheMem ((get_all netOnePod "Pod" kr8sALL ⟨[], 0⟩).2).cache ("Pod", "default") = true := by
  refine ⟨rfl, rfl, rfl⟩

/-! ## instrumentors/k8s.py: SensorPods.Container.status

A containerStatus record as the sensor reads it. Its `state` dict has up to three
keys, `running` / `terminated` / `waiting`, modelled as optional flat string dicts
(the sensor only ever reads string-valued fields such as `reason` from them).
-/

/-- A flat JSON-ish dict of string fields, e.g. `state.waiting`. -/
abbrev FieldDict := List (String × String)

/-- Python `"key" in d` / `d.key` on a flat dict. -/
def dictGet (d : FieldDict) (k : String) : Option String :=
  (d.find? (fun p => p.1 == k)).map (·.2)

/-- Python `json.dumps` on a flat dict of string fields. -/
def jsonDumps (d : FieldDict) : String :=
  "\x7b" ++ String.intercalate ", " (d.map (fun p => "\"" ++ p.1 ++ "\": \"" ++ p.2 ++ "\"")) ++ "\x7d"

/-- `containerStatus.state` with its three optional sub-records. -/
structure ContainerState where
  running : Option FieldDict
  terminated : Option FieldDict
  waiting : Option FieldDict
deriving DecidableEq, Repr

/-- A containerStatus record: the fields `SensorPods.Container.status` reads. -/
structure ContainerStatus where
  name : String
  ready : Bool
  started : Bool
  state : ContainerState
deriving DecidableEq, Repr

/-- k8s.py `SensorPods.Container.status`, transcribed branch by branch: `running`,
then `terminated`, then `waiting`, else UNKNOWN. In the waiting branch with reason
`"ImagePullBackOff"`, the Python logs `json.dumps(details)` at ERROR — the full
waiting record, not the bare reason. -/
def Container_status (cs : ContainerStatus) : Status :=
  if cs.state.running.isSome then
    ⟨State.from_bool (some (cs.ready && cs.started)), [⟨"running", Severity.INFO⟩]⟩
  else if cs.state.terminated.isSome then
    let terminated_successfully :=
      dictGet (cs.state.terminated.getD []) "reason" == some "Completed"
    ⟨State.from_bool (some (!cs.ready && !cs.started && terminated_successfully)),
      [⟨"terminated", Severity.ERROR⟩]⟩
  else
    match cs.state.waiting with
    | some details =>
      match dictGet details "reason" with
      | some r =>
        if r == "ImagePullBackOff" then ⟨State.FAILING, [⟨jsonDumps details, Severity.ERROR⟩]⟩
        else ⟨State.FAILING, [⟨r, Severity.INFO⟩]⟩
      | none => ⟨State.FAILING, [⟨"waiting", Severity.INFO⟩]⟩
    | none => ⟨State.UNKNOWN, [⟨"unknown state", Severity.INFO⟩]⟩

/-- C8 counterexample: for a waiting container with reason `"ImagePullBackOff"` the
single message is the JSON serialization of `state.waiting`, not the reason string
the claim says. -/
theorem claim_C8_counterexample :
    Container_status ⟨"c", false, false, ⟨none, none, some [("reason", "ImagePullBackOff")]⟩⟩
      = ⟨State.FAILING, [⟨"\x7b\"reason\": \"ImagePullBackOff\"\x7d", Severity.ERROR⟩]⟩
    ∧ "\x7b\"reason\": \"ImagePullBackOff\"\x7d" ≠ "ImagePullBackOff" := by
  exact ⟨rfl, by decide⟩

/-- C8 (amended): for a containerStatus whose state has only `waiting` present, the
status is FAILING; the message is `state.waiting.reason` at INFO when a reason is
present and differs from `"ImagePullBackOff"`, the JSON dump of `state.waiting` at
ERROR when the reason is `"ImagePullBackOff"`, and the literal `"waiting"` at INFO
when no reason is present. -/
theorem claim_C8_amended (cs : ContainerStatus) (d : FieldDict)
    (h1 : cs.state.running = none) (h2 : cs.state.terminated = none)
    (h3 : cs.state.waiting = some d) :
    (Container_status cs).state = State.FAILING
    ∧ (dictGet d "reason" = some "ImagePullBackOff" →
        (Container_status cs).messages = [⟨jsonDumps d, Severity.ERROR⟩])
    ∧ (∀ r, dictGet d "reason" = some r → r ≠ "ImagePullBackOff" →
        (Container_status cs).messages = [⟨r, Severity.INFO⟩])
    ∧ (dictGet d "reason" = none →
        (Container_status cs).messages = [⟨"waiting", Severity.INFO⟩]) := by
  refine ⟨?_, ?_, ?_, ?_⟩
  · simp only [Container_status, h1, h2, h3, Option.isSome_none, if_false]
    cases hr : dictGet d "reason" with
    | some r =>
      by_cases hipb : r == "ImagePullBackOff" <;> simp [hipb]
    | none => simp
  · intro hr
    simp [Container_status, h1, h2, h3, hr]
  · intro r hr hne
    simp [Container_status, h1, h2, h3, hr, hne]
  · intro hr
    simp [Container_status, h1, h2, h3, hr]

/-- Witness for C8 (amended): a waiting container with reason
`"CrashLoopBackOff"` fails with the bare reason logged at INFO. -/
theorem claim_C8_amended_witness :
    (Container_status ⟨"c", false, false, ⟨none, none, some [("reason", "CrashLoopBackOff")]⟩⟩).state
      = State.FAILING
    ∧ (Container_status ⟨"c", false, false, ⟨none, none, some [("reason", "CrashLoopBackOff")]⟩⟩).messages
      = [⟨"CrashLoopBackOff", Severity.INFO⟩] := by
  have h := claim_C8_amended
    ⟨"c", false, false, ⟨none, none, some [("reason", "CrashLoopBackOff")]⟩⟩
    [("reason", "CrashLoopBackOff")] rfl rfl rfl
  exact ⟨h.1, h.2.2.1 "CrashLoopBackOff" rfl (by decide)⟩

/-! ## visualisers/console.py: the walk that contains status() failures

A scanner as the visualiser walks it: a name, a `status()` call that may raise, and
children. `VisualiserConsole._visualise_scanner` catches a raising `status()`,
substitutes an UNKNOWN status carrying an ERROR log, and still recurses into the
node's children. The Python ERROR message embeds a JSON description of the scanner
(name, type, stringified children); only the scanner's name is reproduced here.
-/

/-- A scanner as walked by the visualiser: `status()` is a possibly-raising
computation. -/
inductive VSc where
  | node : String → Except String Status → List VSc → VSc

/-- console.py `Show` (which scanners to print). -/
inductive ShowMode where
  | ALL
  | ONLY_FAILING
deriving DecidableEq, Repr

/-- console.py `VisualiserConsole._visualise_log`. -/
def _visualise_log (log : Log) (indent : Nat) : String :=
  String.join (List.replicate indent "\t") ++ "- " ++ log.severity.nameStr ++ ": " ++ log.message

mutual

/-- console.py `VisualiserConsole._visualise_scanner`: render this scanner's line
(after the try/except around `status()`), its logs, then its children one level
deeper. -/
def _visualise_scanner (symbols : State → String) (mode : ShowMode) (sc : VSc)
    (indent : Nat) : List String :=
  match sc with
  | .node nm st cs =>
    let status : Status :=
      match st with
      | .ok s => s
      | .error _ =>
        ⟨State.UNKNOWN, [⟨"Unable to get status for " ++ nm, Severity.ERROR⟩]⟩
    if mode == ShowMode.ONLY_FAILING && status.state == State.PASSING then []
    else
      (String.join (List.replicate indent "\t") ++ symbols status.state ++ " : " ++ nm)
        :: (status.messages.map (fun log => _visualise_log log indent)
            ++ _visualise_children symbols mode cs (indent + 1))

/-- The `[self._visualise_scanner(e, indent + 1) for e in scanner.children()]`
comprehension, flattened. -/
def _visualise_children (symbols : State → String) (mode : ShowMode) :
    List VSc → Nat → List String
  | [], _ => []
  | c :: rest, indent =>
    _visualise_scanner symbols mode c indent ++ _visualise_children symbols mode rest indent

end

/-- A raising member makes `seqExcept` raise: the Python list comprehension aborts at
the first child whose `status()` raises. -/
theorem seqExcept_error_of_mem (l : List (Except String Status)) (e : String)
    (h : Except.error e ∈ l) : ∃ m, seqExcept l = .error m := by
  induction l with
  | nil => cases h
  | cons x rest ih =>
    cases h with
    | head => exact ⟨e, rfl⟩
    | tail _ hmem =>
      cases x with
      | error e' => exact ⟨e', rfl⟩
      | ok s =>
        obtain ⟨m, hm⟩ := ih hmem
        exact ⟨m, by simp [seqExcept, hm]⟩

/-- C1 counterexample: when a child's `status()` raises during aggregation,
`status_all` does not surface UNKNOWN and continue — it raises `ScannerError`, even
though a passing sibling follows. -/
theorem claim_C1_counterexample :
    status_all [Except.error "kr8s API error", Except.ok ⟨State.PASSING, []⟩]
      = Except.error "ScannerError: error instrumenting" := rfl

/-- C1 (amended): a raising child makes the aggregator itself raise — `status_all`
wraps any child failure as `ScannerError` instead of continuing. The UNKNOWN/ERROR-log
containment lives one layer up, in the console visualiser: a scanner whose `status()`
raises is rendered with the UNKNOWN symbol and an ERROR log, and the walk still
descends into all of its children. -/
theorem claim_C1_amended :
    (∀ (l : List (Except String Status)) (e : String), Except.error e ∈ l →
      status_all l = Except.error "ScannerError: error instrumenting")
    ∧ (∀ (symbols : State → String) (nm : String) (m : String) (cs : List VSc) (indent : Nat),
        _visualise_scanner symbols ShowMode.ALL (.node nm (.error m) cs) indent
          = (String.join (List.replicate indent "\t") ++ symbols State.UNKNOWN ++ " : " ++ nm)
            :: _visualise_log ⟨"Unable to get status for " ++ nm, Severity.ERROR⟩ indent
            :: _visualise_children symbols ShowMode.ALL cs (indent + 1)) := by
  constructor
  · intro l e h
    obtain ⟨m, hm⟩ := seqExcept_error_of_mem l e h
    simp [status_all, hm]
  · intro symbols nm m cs indent
    simp [_visualise_scanner]

/-- Witness for C1 (amended): a concrete failing child aborts a concrete aggregation. -/
theorem claim_C1_amended_witness :
    status_all [Except.ok ⟨State.PASSING, []⟩, Except.error "boom"]
      = Except.error "ScannerError: error instrumenting" :=
  claim_C1_amended.1 [Except.ok ⟨State.PASSING, []⟩, Except.error "boom"] "boom"
    (by simp)

end Alpacalert
